import Mathlib

/-!
Verification of the aws-tag-audit program (`src/main.py`) against its
natural-language specification.

The Python module is shallowly embedded below.  Python dictionaries are
modelled as association lists in insertion order with last-write-wins
assignment (`dictSet`) and first-match lookup (`dictGet`), which agrees with
CPython dict semantics when, as here, `dictSet` keeps keys unique.  A Python
value that may be `None` is modelled as an `Option`.  A Python function that
can raise is modelled with `Except String`, the string being the kind of
exception raised.  External collaborators (boto3, the paginator source, the
`validate_email` library) are out of scope per the spec and enter the
embedding as explicit parameters: the list the paginator produced, and a
`validEmail : String → Bool` verdict function.
-/

namespace TagAudit

/-- Lookup in a Python dict modelled as an association list:
`d.get(k)`, returning `none` when the key is absent. -/
def dictGet {K V : Type} [DecidableEq K] (m : List (K × V)) (k : K) :
    Option V :=
  match m with
  | [] => none
  | (k₁, v₁) :: rest => if k₁ = k then some v₁ else dictGet rest k

/-- Assignment in a Python dict: `d[k] = v`.  Keeps insertion order and
replaces the value in place when the key is already present. -/
def dictSet {K V : Type} [DecidableEq K] (m : List (K × V)) (k : K) (v : V) :
    List (K × V) :=
  match m with
  | [] => [(k, v)]
  | (k₁, v₁) :: rest =>
      if k₁ = k then (k, v) :: rest else (k₁, v₁) :: dictSet rest k v

@[simp] theorem dictGet_nil {K V : Type} [DecidableEq K] (k : K) :
    dictGet ([] : List (K × V)) k = none := rfl

theorem dictGet_dictSet_self {K V : Type} [DecidableEq K] (m : List (K × V))
    (k : K) (v : V) : dictGet (dictSet m k v) k = some v := by
  induction m with
  | nil => simp [dictGet, dictSet]
  | cons hd tl ih =>
      obtain ⟨k₁, v₁⟩ := hd
      by_cases h : k₁ = k <;> simp [dictGet, dictSet, h, ih]

theorem dictGet_dictSet_ne {K V : Type} [DecidableEq K] (m : List (K × V))
    (k k₂ : K) (v : V) (h : k ≠ k₂) :
    dictGet (dictSet m k v) k₂ = dictGet m k₂ := by
  induction m with
  | nil => simp [dictGet, dictSet, h]
  | cons hd tl ih =>
      obtain ⟨k₁, v₁⟩ := hd
      by_cases h₁ : k₁ = k <;> simp [dictGet, dictSet, h₁, h, ih]

/-- A key absent from an association list looks up to `none`. -/
theorem dictGet_eq_none_of_not_mem_keys {K V : Type} [DecidableEq K]
    (m : List (K × V)) (k : K) (h : k ∉ m.map Prod.fst) :
    dictGet m k = none := by
  induction m with
  | nil => rfl
  | cons hd tl ih =>
      obtain ⟨k₁, v₁⟩ := hd
      simp only [List.map_cons, List.mem_cons, not_or] at h
      simp [dictGet, Ne.symm h.1, ih h.2]

/-! ## `build_filepath` (src/main.py lines 13–21)

Derives the cache file path.  Note the Python truthiness test `if key:`,
which skips the `_Key=` suffix both when `key` is `None` and when it is the
empty string. -/

/-- Python `key.replace("/", "+")`: the pattern is a single character, so
the call is exactly a character-by-character map. -/
def slashToPlus (s : String) : String :=
  String.mk (s.data.map (fun c => if c = '/' then '+' else c))

def build_filepath (region_name profile_name client_type method : String)
    (key : Option String) : String :=
  let filename :=
    region_name ++ "/" ++ profile_name ++ "/" ++ client_type ++ "/" ++ method
  let filename :=
    match key with
    | some k =>
        if k ≠ "" then filename ++ "_Key=" ++ slashToPlus k
        else filename
    | none => filename
  let filename := filename ++ ".json"
  let base_dir := "./data/"
  base_dir ++ filename

/-- The path formula exactly as the spec words it (§6 cache file layout):
the `_Key={key}` suffix appears whenever a key is given, `/` in the key
replaced by `+`. -/
def spec_filepath (region_name profile_name client_type method : String)
    (key : Option String) : String :=
  "./data/" ++ region_name ++ "/" ++ profile_name ++ "/" ++ client_type ++
    "/" ++ method ++
    (match key with
     | some k => "_Key=" ++ slashToPlus k
     | none => "") ++ ".json"

/-! ## Disk cache (`local_cache`, src/main.py lines 23–51)

The file system is an association list from paths to stored values;
`json.dump`/`json.load` round-trip is modelled as the identity on the stored
value.  `local_cache` returns the value, the file system after the call, and
whether the wrapped compute function was invoked. -/

structure CacheState (V : Type) where
  files : List (String × V)

def check_file_exists {V : Type} (fs : CacheState V) (filepath : String) :
    Bool :=
  (dictGet fs.files filepath).isSome

def read_from_file {V : Type} (fs : CacheState V) (filepath : String) :
    Option V :=
  dictGet fs.files filepath

def write_to_file {V : Type} (fs : CacheState V) (filepath : String) (v : V) :
    CacheState V :=
  ⟨dictSet fs.files filepath v⟩

def local_cache {V : Type} (fs : CacheState V)
    (region_name profile_name client_type method : String)
    (key : Option String) (func : Unit → V) : V × CacheState V × Bool :=
  let filepath := build_filepath region_name profile_name client_type method key
  match read_from_file fs filepath with
  | some value => (value, fs, false)
  | none =>
      let value := func ()
      (value, write_to_file fs filepath value, true)

/-! ## `sort` decorator and `TaggingApi` read operations (src/main.py 53–94)

The `sort` decorator applies Python's `sorted` builtin — a stable comparison
sort producing an ascending sequence — to the wrapped function's result.
`sorted` is modelled by `List.mergeSort` under the lexicographic order on
`String` (Python compares strings code point by code point, as Lean does).
The paginator and the AWS client behind it are external; `get_keys` and
`get_values` therefore take the list the paginator produced as a
parameter. -/

def sortStrings (value : List String) : List String :=
  value.mergeSort (· ≤ ·)

/-- `TaggingApi.get_keys`: the `sort` decorator applied to the paginated
`get_tag_keys` result. -/
def get_keys (paginated : List String) : List String :=
  sortStrings paginated

/-- `TaggingApi.get_values`: the `sort` decorator applied to the paginated
`get_tag_values` result for the given key.  The key only selects which list
the provider returns, so it is a phantom here. -/
def get_values (_key : String) (paginated : List String) : List String :=
  sortStrings paginated

/-! ## Policy constants and checks (src/main.py 96–127) -/

def STANDARD_TAGS : List String :=
  ["Name", "Environment", "Project", "Department", "Contact", "Management",
   "MonitoringFlag"]

def REQUIRED_TAGS : List String :=
  ["Name", "Environment", "Project", "Department", "Contact"]

/-- The input of `get_invalid_standard_tag_values`: a dict from tag name to a
list of values, where a value may be Python `None` (this is exactly what
`main` builds: `{ tag: keys_with_values.get(tag) for tag in STANDARD_TAGS }`,
and `.get` yields `None` for an absent tag). -/
abbrev StdTagValues := List (String × Option (List String))

/-- Python `standard_tags_values.get(tag, [])`: the stored value (which may
be `None`) when the key is present, else the default `[]`. -/
def pyGetDefault (m : StdTagValues) (k : String) : Option (List String) :=
  match dictGet m k with
  | none => some []
  | some v => v

/-- First block of `get_invalid_standard_tag_values`: the Contact rule.
Values under "Contact" failing the email check are recorded.  `validEmail`
stands for the external `validate_email` library (out of scope per the
spec). -/
def contactStep (validEmail : String → Bool) (stv : StdTagValues)
    (invalid_values : List (String × List String)) :
    List (String × List String) :=
  match pyGetDefault stv "Contact" with
  | none => invalid_values
  | some contacts =>
      let invalid_contacts := contacts.filter (fun contact => !validEmail contact)
      if invalid_contacts.length > 0 then
        dictSet invalid_values "Contact" invalid_contacts
      else invalid_values

/-- Second block of `get_invalid_standard_tag_values`: the Environments rule.
Values under "Environments" outside `["staging", "production", "dev"]` are
recorded. -/
def environmentsStep (stv : StdTagValues)
    (invalid_values : List (String × List String)) :
    List (String × List String) :=
  match pyGetDefault stv "Environments" with
  | none => invalid_values
  | some environments =>
      let invalid_environment :=
        environments.filter (fun env => env ∉ ["staging", "production", "dev"])
      if invalid_environment.length > 0 then
        dictSet invalid_values "Environments" invalid_environment
      else invalid_values

/-- The dictionary `invalid_values` as accumulated by the body of
`get_invalid_standard_tag_values` just before the function ends. -/
def invalidValuesAcc (validEmail : String → Bool) (stv : StdTagValues) :
    List (String × List String) :=
  environmentsStep stv (contactStep validEmail stv [])

/-- `get_invalid_standard_tag_values` (src/main.py 102–114).  The Python
function builds `invalid_values` but has NO return statement, so it falls off
the end and returns `None`; the accumulated dictionary is discarded. -/
def get_invalid_standard_tag_values (validEmail : String → Bool)
    (stv : StdTagValues) : Option (List (String × List String)) :=
  let _invalid_values := invalidValuesAcc validEmail stv
  none

/-! ## `get_missing_required_tags` (src/main.py 117–127)

A resource is a dict with optional `ResourceARN` and `Tags` entries
(`resource.get` returns `None` when absent).  When `Tags` is `None`,
`list(filter(..., None))` raises `TypeError`, modelled with `Except`. -/

structure Tag where
  Key : String
  Value : String
deriving Repr, DecidableEq

structure Resource where
  ResourceARN : Option String
  Tags : Option (List Tag)
deriving Repr, DecidableEq

/-- The missing-tag list computed for one resource from its tag list:
keep the resource's tags whose key is required, project to keys, then keep
the required tags not among those keys, in `REQUIRED_TAGS` order. -/
def missingForTags (tags : List Tag) : List String :=
  let required_tags := tags.filter (fun d => d.Key ∈ REQUIRED_TAGS)
  let required_tags_keys := required_tags.map Tag.Key
  REQUIRED_TAGS.filter (fun d => d ∉ required_tags_keys)

/-- The `for resource in resources` loop of `get_missing_required_tags`,
threading the accumulated `missing_tags` dict (keys are the possibly-`None`
ARNs).  A resource with `Tags = None` raises. -/
def missingLoop (resources : List Resource)
    (missing_tags : List (Option String × List String)) :
    Except String (List (Option String × List String)) :=
  match resources with
  | [] => .ok missing_tags
  | resource :: rest =>
      match resource.Tags with
      | none => .error "TypeError: NoneType object is not iterable"
      | some tags =>
          let missing_required_tags := missingForTags tags
          let missing_tags :=
            if missing_required_tags.length > 0 then
              dictSet missing_tags resource.ResourceARN missing_required_tags
            else missing_tags
          missingLoop rest missing_tags

def get_missing_required_tags (resources : List Resource) :
    Except String (List (Option String × List String)) :=
  missingLoop resources []

/-! ## `main` (src/main.py 159–184)

The per-pair body builds
`standard_tags_values = { tag: keys_with_values.get(tag) for tag in STANDARD_TAGS }`
and, on exception, runs
`error_code = identifier.response.get("Error", {}).get("Code")` before the
code comparison.  A Python exception either is a botocore `ClientError`
carrying a `.response` dict (its nested `Error.Code` modelled as an
`Option String`), or is any other runtime exception, which has no
`.response` attribute: accessing it inside the `except` block raises
`AttributeError`, which nothing catches. -/

/-- The dict comprehension in `main` line 174. -/
def standard_tags_values_of (keys_with_values : List (String × List String)) :
    StdTagValues :=
  STANDARD_TAGS.map (fun tag => (tag, dictGet keys_with_values tag))

inductive PyExc where
  /-- A provider error with a `.response` payload; the field is
  `response["Error"]["Code"]` when present. -/
  | client (code : Option String) (msg : String)
  /-- Any other runtime exception: no `.response` attribute. -/
  | runtime (msg : String)
deriving Repr, DecidableEq

/-- The `except` handler of `main` applied to one raised exception: either a
list of lines printed (empty when the error code is `AccessDeniedException`),
or the secondary exception the handler itself raises. -/
def exceptHandler (profile region : String) (exc : PyExc) :
    Except String (List String) :=
  match exc with
  | .client code msg =>
      if code = some "AccessDeniedException" then .ok []
      else .ok ["Exception Profile:  " ++ profile ++ " " ++ region ++ " " ++ msg]
  | .runtime _ =>
      .error "AttributeError: object has no attribute response"

/-- One `(profile, region)` iteration of the driver loop: the `try` body is
abstracted as `run`, producing either a result or a raised exception. -/
def handlePair (run : String → String → Except PyExc Unit)
    (profile region : String) : Except String (List String) :=
  match run profile region with
  | .ok _ => .ok []
  | .error exc => exceptHandler profile region exc

/-- The nested `for profile / for region` loop of `main`, flattened to a list
of pairs.  Returns the pairs that were fully processed, or the message of an
uncaught exception that aborted the loop. -/
def driverLoop (run : String → String → Except PyExc Unit) :
    List (String × String) → Except String (List (String × String))
  | [] => .ok []
  | (profile, region) :: rest =>
      match handlePair run profile region with
      | .error e => .error e
      | .ok _ =>
          match driverLoop run rest with
          | .ok done => .ok ((profile, region) :: done)
          | .error e => .error e

/-! # Helper lemmas -/

theorem dictGet_contactStep_ne (validEmail : String → Bool)
    (stv : StdTagValues) (acc : List (String × List String)) (k : String)
    (h : k ≠ "Contact") :
    dictGet (contactStep validEmail stv acc) k = dictGet acc k := by
  unfold contactStep
  cases pyGetDefault stv "Contact" with
  | none => rfl
  | some contacts =>
      dsimp only
      split
      · exact dictGet_dictSet_ne _ _ _ _ (Ne.symm h)
      · rfl

theorem dictGet_environmentsStep_ne (stv : StdTagValues)
    (acc : List (String × List String)) (k : String)
    (h : k ≠ "Environments") :
    dictGet (environmentsStep stv acc) k = dictGet acc k := by
  unfold environmentsStep
  cases pyGetDefault stv "Environments" with
  | none => rfl
  | some environments =>
      dsimp only
      split
      · exact dictGet_dictSet_ne _ _ _ _ (Ne.symm h)
      · rfl

theorem contactStep_of_absent (validEmail : String → Bool)
    (stv : StdTagValues) (acc : List (String × List String))
    (h : dictGet stv "Contact" = none ∨ dictGet stv "Contact" = some none) :
    contactStep validEmail stv acc = acc := by
  rcases h with h | h <;> simp [contactStep, pyGetDefault, h]

theorem environmentsStep_of_absent (stv : StdTagValues)
    (acc : List (String × List String))
    (h : dictGet stv "Environments" = none ∨
         dictGet stv "Environments" = some none) :
    environmentsStep stv acc = acc := by
  rcases h with h | h <;> simp [environmentsStep, pyGetDefault, h]

/-! # Claims -/

/-- C2: `get_invalid_standard_tag_values` never returns its accumulated
result: for every verdict function of the external email validator and every
input mapping, the returned value is `None`, carrying none of the computed
violations. -/
theorem C2_never_returns_accumulated_result (validEmail : String → Bool)
    (stv : StdTagValues) :
    get_invalid_standard_tag_values validEmail stv = none := rfl

/-- Modelled from the spec: a concrete stand-in for the verdicts of the
external `validate_email` library (explicitly out of scope in §1), agreeing
with the spec examples in §8: `good@example.com` is a valid address and
`not-an-email` is not. -/
def specValidEmail (email : String) : Bool :=
  email = "good@example.com"

/-- C1 (code bug): on the input from the claim the body of
`get_invalid_standard_tag_values` does accumulate exactly the violations the
claim describes — `Contact ↦ ["not-an-email"]`, resp.
`Environments ↦ ["qa"]` — but the function has no return statement, so its
result is `None` rather than the accumulated mapping. -/
theorem C1_returns_none_despite_accumulating :
    get_invalid_standard_tag_values specValidEmail
      [("Contact", some ["good@example.com", "not-an-email"])] = none ∧
    invalidValuesAcc specValidEmail
      [("Contact", some ["good@example.com", "not-an-email"])] =
      [("Contact", ["not-an-email"])] ∧
    get_invalid_standard_tag_values specValidEmail
      [("Environments", some ["staging", "qa"])] = none ∧
    invalidValuesAcc specValidEmail
      [("Environments", some ["staging", "qa"])] =
      [("Environments", ["qa"])] := by
  refine ⟨rfl, ?_, rfl, ?_⟩ <;> decide

/-- C8: when the `Contact` (resp. `Environments`) key is absent from the
input or maps to `None`, the function completes (the embedding is total on
this input type) and its accumulated dictionary records no violation under
that tag. -/
theorem C8_missing_tag_rule_skipped (validEmail : String → Bool)
    (stv : StdTagValues) :
    (dictGet stv "Contact" = none ∨ dictGet stv "Contact" = some none →
      dictGet (invalidValuesAcc validEmail stv) "Contact" = none) ∧
    (dictGet stv "Environments" = none ∨
        dictGet stv "Environments" = some none →
      dictGet (invalidValuesAcc validEmail stv) "Environments" = none) := by
  constructor
  · intro h
    rw [invalidValuesAcc,
      dictGet_environmentsStep_ne _ _ _ (by decide),
      contactStep_of_absent _ _ _ h]
    rfl
  · intro h
    rw [invalidValuesAcc, environmentsStep_of_absent _ _ h,
      dictGet_contactStep_ne _ _ _ _ (by decide)]
    rfl

/-- C8 witness: the two sides of `C8_missing_tag_rule_skipped` at concrete
inputs — `Contact` absent in the first mapping, `Environments` present but
`None` in the second. -/
theorem C8_missing_tag_rule_skipped_witness :
    dictGet (invalidValuesAcc specValidEmail
      [("Environments", some ["qa"])]) "Contact" = none ∧
    dictGet (invalidValuesAcc specValidEmail
      [("Environments", none), ("Contact", some ["bad"])])
      "Environments" = none :=
  ⟨(C8_missing_tag_rule_skipped specValidEmail _).1 (Or.inl rfl),
   (C8_missing_tag_rule_skipped specValidEmail _).2 (Or.inr rfl)⟩

/-- C9: on the driver path the environment-value rule is unreachable.  The
mapping `main` builds has exactly the keys of `STANDARD_TAGS`, which contains
`Environment` but not `Environments`; `get_invalid_standard_tag_values`
reads only `Environments`, so it sees the default empty list and its
accumulated dictionary never has an `Environments` entry. -/
theorem C9_environments_rule_unreachable (validEmail : String → Bool)
    (keys_with_values : List (String × List String)) :
    (standard_tags_values_of keys_with_values).map Prod.fst = STANDARD_TAGS ∧
    "Environment" ∈ STANDARD_TAGS ∧
    "Environments" ∉ STANDARD_TAGS ∧
    pyGetDefault (standard_tags_values_of keys_with_values) "Environments" =
      some [] ∧
    dictGet (invalidValuesAcc validEmail
      (standard_tags_values_of keys_with_values)) "Environments" = none := by
  have hkeys : (standard_tags_values_of keys_with_values).map Prod.fst =
      STANDARD_TAGS := by
    simp only [standard_tags_values_of, List.map_map]
    rfl
  have habs : dictGet (standard_tags_values_of keys_with_values)
      "Environments" = none := by
    apply dictGet_eq_none_of_not_mem_keys
    rw [hkeys]
    decide
  refine ⟨hkeys, by decide, by decide, ?_, ?_⟩
  · rw [pyGetDefault, habs]
  · rw [invalidValuesAcc, environmentsStep_of_absent _ _ (Or.inl habs),
      dictGet_contactStep_ne _ _ _ _ (by decide)]
    rfl

/-- C5: for any ordering of the items produced by the underlying paginated
source, `get_keys` and `get_values` return their result in ascending
lexicographic order (and, the `sort` decorator being Python `sorted`, the
result is a permutation of the source). -/
theorem C5_results_sorted (source₁ source₂ : List String) (key : String) :
    List.Sorted (· ≤ ·) (get_keys source₁) ∧
    List.Sorted (· ≤ ·) (get_values key source₂) ∧
    (get_keys source₁).Perm source₁ ∧
    (get_values key source₂).Perm source₂ :=
  ⟨List.sorted_mergeSort' source₁, List.sorted_mergeSort' source₂,
   List.mergeSort_perm source₁ _, List.mergeSort_perm source₂ _⟩

/-- C7 counterexample: for the empty-string key — a given key — Python's
truthiness test `if key:` skips the `_Key=` suffix, so the built path
differs from the spec's path formula, which inserts the suffix whenever a
key is given. -/
theorem C7_empty_key_no_suffix :
    build_filepath "r" "p" "c" "m" (some "") = "./data/r/p/c/m.json" ∧
    spec_filepath "r" "p" "c" "m" (some "") = "./data/r/p/c/m_Key=.json" ∧
    build_filepath "r" "p" "c" "m" (some "") ≠
      spec_filepath "r" "p" "c" "m" (some "") := by
  refine ⟨rfl, rfl, ?_⟩
  decide

/-- C7 as amended: for every region, profile, resource kind, method and
optional key, when any given key is non-empty the built cache file path is
exactly `./data/{region}/{profile}/{resource-kind}/{method}.json` with
`_Key={key}` inserted before `.json` when a key is given, every `/` in the
key replaced by `+`. -/
theorem C7_filepath_layout
    (region_name profile_name client_type method : String)
    (key : Option String) (h : ∀ k, key = some k → k ≠ "") :
    build_filepath region_name profile_name client_type method key =
      spec_filepath region_name profile_name client_type method key := by
  cases key with
  | none =>
      apply String.ext
      simp [build_filepath, spec_filepath]
  | some k =>
      apply String.ext
      simp [build_filepath, spec_filepath, h k rfl]

/-- C7 witness: the amended layout at a concrete identity whose key
contains a slash. -/
theorem C7_filepath_layout_witness :
    build_filepath "ap-southeast-2" "prod" "resourcegroupstaggingapi"
        "get_tag_values" (some "a/b") =
      spec_filepath "ap-southeast-2" "prod" "resourcegroupstaggingapi"
        "get_tag_values" (some "a/b") ∧
    build_filepath "ap-southeast-2" "prod" "resourcegroupstaggingapi"
        "get_tag_values" (some "a/b") =
      "./data/ap-southeast-2/prod/resourcegroupstaggingapi/get_tag_values_Key=a+b.json" :=
  ⟨C7_filepath_layout "ap-southeast-2" "prod" "resourcegroupstaggingapi"
      "get_tag_values" (some "a/b")
      (fun k hk => by injection hk with h₁; rw [← h₁]; decide),
   by decide⟩

/-- C4: read-through caching.  If the file at the derived path exists its
parsed contents are returned and the compute function is not invoked;
otherwise the compute function is invoked, its result persisted and
returned; consequently a second call with the same identity returns the same
data as the first, on the same file-system state, without re-invoking the
compute function. -/
theorem C4_cache_read_through {V : Type} (fs : CacheState V)
    (region_name profile_name client_type method : String)
    (key : Option String) (func : Unit → V) :
    (∀ v, read_from_file fs
        (build_filepath region_name profile_name client_type method key) =
          some v →
      local_cache fs region_name profile_name client_type method key func =
        (v, fs, false)) ∧
    (read_from_file fs
        (build_filepath region_name profile_name client_type method key) =
          none →
      local_cache fs region_name profile_name client_type method key func =
        (func (),
         write_to_file fs
           (build_filepath region_name profile_name client_type method key)
           (func ()), true)) ∧
    local_cache
        (local_cache fs region_name profile_name client_type method key
          func).2.1
        region_name profile_name client_type method key func =
      ((local_cache fs region_name profile_name client_type method key func).1,
       (local_cache fs region_name profile_name client_type method key
         func).2.1,
       false) := by
  refine ⟨?_, ?_, ?_⟩
  · intro v hv
    simp [local_cache, hv]
  · intro hv
    simp [local_cache, hv]
  · rcases hv : dictGet fs.files
        (build_filepath region_name profile_name client_type method key) with
      _ | v
    · simp [local_cache, read_from_file, write_to_file, hv,
        dictGet_dictSet_self]
    · simp [local_cache, read_from_file, hv]

/-- C4 witness: on an empty file system the first call computes (42) and
persists; the second call with the same identity returns the same value and
state without invoking the compute function. -/
theorem C4_cache_read_through_witness :
    read_from_file (⟨[]⟩ : CacheState Nat)
      (build_filepath "r" "p" "c" "m" none) = none ∧
    local_cache (⟨[]⟩ : CacheState Nat) "r" "p" "c" "m" none
        (fun _ => 42) =
      (42, write_to_file ⟨[]⟩ (build_filepath "r" "p" "c" "m" none) 42,
       true) ∧
    local_cache
        (local_cache (⟨[]⟩ : CacheState Nat) "r" "p" "c" "m" none
          (fun _ => 42)).2.1 "r" "p" "c" "m" none (fun _ => 42) =
      ((local_cache (⟨[]⟩ : CacheState Nat) "r" "p" "c" "m" none
          (fun _ => 42)).1,
       (local_cache (⟨[]⟩ : CacheState Nat) "r" "p" "c" "m" none
          (fun _ => 42)).2.1,
       false) :=
  ⟨rfl,
   (C4_cache_read_through (⟨[]⟩ : CacheState Nat) "r" "p" "c" "m" none
      (fun _ => 42)).2.1 rfl,
   (C4_cache_read_through (⟨[]⟩ : CacheState Nat) "r" "p" "c" "m" none
      (fun _ => 42)).2.2⟩

theorem handlePair_ok (run : String → String → Except PyExc Unit)
    (profile region : String)
    (h : ∀ msg, run profile region ≠ .error (.runtime msg)) :
    ∃ log, handlePair run profile region = .ok log := by
  rcases hrun : run profile region with exc | _
  case ok => exact ⟨[], by simp [handlePair, hrun]⟩
  case error =>
    cases exc with
    | client code msg =>
        by_cases hc : code = some "AccessDeniedException" <;>
          simp [handlePair, hrun, exceptHandler, hc]
    | runtime msg => exact absurd hrun (h msg)

/-- A run of the per-pair body that raises a runtime (non-provider)
exception on profile `p1` and succeeds elsewhere. -/
def runRuntimeDemo : String → String → Except PyExc Unit :=
  fun profile _ =>
    if profile = "p1" then
      .error (.runtime "TypeError: argument of type NoneType is not iterable")
    else .ok ()

/-- C6 counterexample: a runtime error without a `.response` attribute (here
the `TypeError` that `get_missing_required_tags` raises on a tagless
resource) is caught by `except Exception`, but the handler's own
`identifier.response` access raises `AttributeError`, which nothing catches:
the run aborts and the second pair is never processed, contradicting the
claim that any runtime error is printed and the loop continues. -/
theorem C6_runtime_error_aborts :
    driverLoop runRuntimeDemo [("p1", "r1"), ("p2", "r1")] =
      .error "AttributeError: object has no attribute response" ∧
    driverLoop runRuntimeDemo [("p1", "r1"), ("p2", "r1")] ≠
      .ok [("p1", "r1"), ("p2", "r1")] := by
  refine ⟨rfl, ?_⟩
  intro hcontra
  simp [runRuntimeDemo, driverLoop, handlePair, exceptHandler] at hcontra

/-- C6 as amended: on every (profile, region) pair whose pass raises only
provider (client) errors — exceptions carrying a `.response` payload — an
error code equal to `AccessDeniedException` is suppressed silently, any
other client error is printed with profile, region and the error, and in
both cases the loop continues through every pair; but a runtime error
without a `.response` attribute makes the handler itself raise and aborts
the run (see the counterexample). -/
theorem C6_client_errors_tolerated
    (run : String → String → Except PyExc Unit)
    (pairs : List (String × String))
    (h : ∀ profile region msg,
      run profile region ≠ .error (.runtime msg)) :
    driverLoop run pairs = .ok pairs ∧
    (∀ profile region msg,
      run profile region = .error (.client (some "AccessDeniedException") msg) →
      handlePair run profile region = .ok []) ∧
    (∀ profile region code msg,
      run profile region = .error (.client code msg) →
      code ≠ some "AccessDeniedException" →
      handlePair run profile region = .ok
        ["Exception Profile:  " ++ profile ++ " " ++ region ++ " " ++ msg]) := by
  refine ⟨?_, ?_, ?_⟩
  · induction pairs with
    | nil => rfl
    | cons hd tl ih =>
        obtain ⟨profile, region⟩ := hd
        obtain ⟨log, hlog⟩ := handlePair_ok run profile region (h profile region)
        rw [driverLoop, hlog, ih]
  · intro profile region msg hrun
    simp [handlePair, hrun, exceptHandler]
  · intro profile region code msg hrun hc
    simp [handlePair, hrun, exceptHandler, hc]

/-- A run of the per-pair body that raises an access-denied client error on
profile `p1`, a throttling client error on `p2` and succeeds elsewhere. -/
def runClientDemo : String → String → Except PyExc Unit :=
  fun profile _ =>
    if profile = "p1" then
      .error (.client (some "AccessDeniedException") "denied")
    else if profile = "p2" then
      .error (.client (some "Throttling") "slow down")
    else .ok ()

/-- C6 witness: a concrete run raising an access-denied error on the first
pair, a throttling error on the second and nothing on the third; all three
pairs are processed, the first silently, the second with a printed line. -/
theorem C6_client_errors_tolerated_witness :
    driverLoop runClientDemo [("p1", "r1"), ("p2", "r1"), ("p3", "r1")] =
      .ok [("p1", "r1"), ("p2", "r1"), ("p3", "r1")] ∧
    handlePair runClientDemo "p1" "r1" = .ok [] ∧
    handlePair runClientDemo "p2" "r1" =
      .ok ["Exception Profile:  p2 r1 slow down"] := by
  have hnr : ∀ profile region msg,
      runClientDemo profile region ≠ .error (.runtime msg) := by
    intro profile region msg
    unfold runClientDemo
    split
    · simp
    · split <;> simp
  refine ⟨(C6_client_errors_tolerated runClientDemo
      [("p1", "r1"), ("p2", "r1"), ("p3", "r1")] hnr).1, ?_, ?_⟩
  · exact (C6_client_errors_tolerated runClientDemo
      [("p1", "r1"), ("p2", "r1"), ("p3", "r1")] hnr).2.1 "p1" "r1" "denied"
      (by simp [runClientDemo])
  · exact (C6_client_errors_tolerated runClientDemo
      [("p1", "r1"), ("p2", "r1"), ("p3", "r1")] hnr).2.2 "p2" "r1"
      (some "Throttling") "slow down" (by simp [runClientDemo]) (by simp)

/-! # Lemmas on the `get_missing_required_tags` loop -/

/-- The computed missing-tag list is the required tags not among the
resource's tag keys, in `REQUIRED_TAGS` order. -/
theorem missingForTags_eq_filter (tags : List Tag) :
    missingForTags tags =
      REQUIRED_TAGS.filter (fun d => d ∉ tags.map Tag.Key) := by
  unfold missingForTags
  apply List.filter_congr
  intro d hd
  simp only [decide_eq_decide, List.mem_map, List.mem_filter, not_exists,
    not_and]
  constructor
  · intro hmem t ht hkey
    exact hmem t ⟨ht, by simp [hkey, List.mem_filter.mp, hd]⟩ hkey
  · intro hmem t ht hkey
    exact hmem t ht.1 hkey

theorem missingLoop_ok (resources : List Resource)
    (acc : List (Option String × List String))
    (h : ∀ r ∈ resources, r.Tags ≠ none) :
    ∃ m, missingLoop resources acc = .ok m := by
  induction resources generalizing acc with
  | nil => exact ⟨acc, rfl⟩
  | cons resource rest ih =>
      rcases htags : resource.Tags with _ | tags
      · exact absurd htags (h resource (by simp))
      · rw [missingLoop, htags]
        exact ih _ (fun r hr => h r (by simp [hr]))

theorem missingLoop_error (resources : List Resource)
    (acc : List (Option String × List String))
    (h : ∃ r ∈ resources, r.Tags = none) :
    missingLoop resources acc =
      .error "TypeError: NoneType object is not iterable" := by
  induction resources generalizing acc with
  | nil => simp at h
  | cons resource rest ih =>
      rcases htags : resource.Tags with _ | tags
      · rw [missingLoop, htags]
      · rw [missingLoop, htags]
        apply ih
        obtain ⟨r, hr, hrt⟩ := h
        rcases List.mem_cons.mp hr with rfl | hr₂
        · exact absurd hrt (by rw [htags]; exact Option.noConfusion)
        · exact ⟨r, hr₂, hrt⟩

/-- Processing resources whose ARNs all differ from `k` leaves the entry of
`k` in the accumulated dict unchanged. -/
theorem missingLoop_preserves (resources : List Resource)
    (acc : List (Option String × List String)) (k : Option String)
    (hk : k ∉ resources.map Resource.ResourceARN)
    (m : List (Option String × List String))
    (hm : missingLoop resources acc = .ok m) :
    dictGet m k = dictGet acc k := by
  induction resources generalizing acc with
  | nil =>
      rw [missingLoop] at hm
      cases hm
      rfl
  | cons resource rest ih =>
      simp only [List.map_cons, List.mem_cons, not_or] at hk
      rcases htags : resource.Tags with _ | tags
      · rw [missingLoop, htags] at hm
        cases hm
      · rw [missingLoop, htags] at hm
        rw [ih _ hk.2 hm]
        split
        · exact dictGet_dictSet_ne _ _ _ _ (fun he => hk.1 he.symm)
        · rfl

/-- The entry of a resource in the final dict, given distinct ARNs: the
computed missing list when non-empty, otherwise whatever the accumulator
already held for that ARN. -/
theorem missingLoop_lookup (resources : List Resource)
    (acc : List (Option String × List String))
    (hnodup : (resources.map Resource.ResourceARN).Nodup)
    (r : Resource) (hr : r ∈ resources) (tags : List Tag)
    (htags : r.Tags = some tags)
    (m : List (Option String × List String))
    (hm : missingLoop resources acc = .ok m) :
    dictGet m r.ResourceARN =
      if missingForTags tags = [] then dictGet acc r.ResourceARN
      else some (missingForTags tags) := by
  induction resources generalizing acc with
  | nil => simp at hr
  | cons resource rest ih =>
      simp only [List.map_cons, List.nodup_cons] at hnodup
      rcases List.mem_cons.mp hr with rfl | hr₂
      · rw [missingLoop, htags] at hm
        dsimp only at hm
        rw [missingLoop_preserves rest _ _ hnodup.1 m hm]
        by_cases hempty : missingForTags tags = []
        · simp [hempty]
        · rw [if_neg hempty,
            if_pos (by simpa [List.length_pos] using hempty),
            dictGet_dictSet_self]
      · rcases htags₀ : resource.Tags with _ | tags₀
        · rw [missingLoop, htags₀] at hm
          dsimp only at hm
          exact absurd hm (by simp)
        · rw [missingLoop, htags₀] at hm
          dsimp only at hm
          have harn : resource.ResourceARN ≠ r.ResourceARN := by
            intro he
            exact hnodup.1 (he ▸ List.mem_map_of_mem Resource.ResourceARN hr₂)
          rw [ih _ hnodup.2 hr₂ hm]
          by_cases hempty : missingForTags tags = []
          · rw [if_pos hempty, if_pos hempty]
            split
            · exact dictGet_dictSet_ne _ _ _ _ harn
            · rfl
          · rw [if_neg hempty, if_neg hempty]

/-- C3: for every resource list whose resources carry a tag list and have
pairwise distinct ARNs, `get_missing_required_tags` maps each resource's ARN
to exactly the required tags not present among its tag keys, in the order of
`REQUIRED_TAGS`, and a resource possessing all required tags is absent from
the result map (its ARN looks up to nothing). -/
theorem C3_missing_required_tags (resources : List Resource)
    (hTags : ∀ r ∈ resources, r.Tags ≠ none)
    (hNodup : (resources.map Resource.ResourceARN).Nodup) :
    ∃ m, get_missing_required_tags resources = .ok m ∧
      ∀ r ∈ resources, ∀ tags, r.Tags = some tags →
        dictGet m r.ResourceARN =
          if REQUIRED_TAGS.filter (fun d => d ∉ tags.map Tag.Key) = []
          then none
          else some (REQUIRED_TAGS.filter (fun d => d ∉ tags.map Tag.Key)) := by
  obtain ⟨m, hm⟩ := missingLoop_ok resources [] hTags
  refine ⟨m, hm, ?_⟩
  intro r hr tags htags
  have hlook := missingLoop_lookup resources [] hNodup r hr tags htags m hm
  rw [missingForTags_eq_filter] at hlook
  simpa using hlook

/-- C3 witness: two resources; one tagged with Name and Project only maps to
exactly Environment, Department, Contact in required-tag order, one carrying
all five required tags is absent from the result map. -/
theorem C3_missing_required_tags_witness :
    ∃ m, get_missing_required_tags
        [Resource.mk (some "arn:a")
          (some [Tag.mk "Name" "n", Tag.mk "Project" "p"]),
         Resource.mk (some "arn:b")
          (some [Tag.mk "Name" "n", Tag.mk "Environment" "e",
                 Tag.mk "Project" "p", Tag.mk "Department" "d",
                 Tag.mk "Contact" "c"])] = .ok m ∧
      dictGet m (some "arn:a") =
        some ["Environment", "Department", "Contact"] ∧
      dictGet m (some "arn:b") = none := by
  obtain ⟨m, hm, hlook⟩ := C3_missing_required_tags
    [Resource.mk (some "arn:a")
      (some [Tag.mk "Name" "n", Tag.mk "Project" "p"]),
     Resource.mk (some "arn:b")
      (some [Tag.mk "Name" "n", Tag.mk "Environment" "e",
             Tag.mk "Project" "p", Tag.mk "Department" "d",
             Tag.mk "Contact" "c"])]
    (by decide) (by decide)
  refine ⟨m, hm, ?_, ?_⟩
  · have h₁ := hlook
      (Resource.mk (some "arn:a")
        (some [Tag.mk "Name" "n", Tag.mk "Project" "p"]))
      (by decide) [Tag.mk "Name" "n", Tag.mk "Project" "p"] rfl
    rw [h₁]
    decide
  · have h₂ := hlook
      (Resource.mk (some "arn:b")
        (some [Tag.mk "Name" "n", Tag.mk "Environment" "e",
               Tag.mk "Project" "p", Tag.mk "Department" "d",
               Tag.mk "Contact" "c"]))
      (by decide)
      [Tag.mk "Name" "n", Tag.mk "Environment" "e", Tag.mk "Project" "p",
       Tag.mk "Department" "d", Tag.mk "Contact" "c"] rfl
    rw [h₂]
    decide

/-- C10: `get_missing_required_tags` requires every resource to carry a
`Tags` list: a list containing a resource whose `Tags` field is absent
(`None`) makes the function raise a `TypeError` instead of treating the
resource as untagged; when every resource has a `Tags` list the error branch
is unreachable, and a resource with an empty tag list maps to the full
`REQUIRED_TAGS` list in order. -/
theorem C10_tags_field_required (resources : List Resource) :
    ((∃ r ∈ resources, r.Tags = none) →
      get_missing_required_tags resources =
        .error "TypeError: NoneType object is not iterable") ∧
    ((∀ r ∈ resources, r.Tags ≠ none) →
      ∃ m, get_missing_required_tags resources = .ok m) ∧
    get_missing_required_tags [Resource.mk (some "arn:empty") (some [])] =
      .ok [(some "arn:empty", REQUIRED_TAGS)] :=
  ⟨fun h => missingLoop_error resources [] h,
   fun h => missingLoop_ok resources [] h,
   rfl⟩

/-- C10 witness: a tagless resource raises, a tagged one succeeds. -/
theorem C10_tags_field_required_witness :
    get_missing_required_tags [Resource.mk (some "arn:z") none] =
      .error "TypeError: NoneType object is not iterable" ∧
    ∃ m, get_missing_required_tags
        [Resource.mk (some "arn:w") (some [Tag.mk "Name" "x"])] = .ok m :=
  ⟨(C10_tags_field_required [Resource.mk (some "arn:z") none]).1
      ⟨Resource.mk (some "arn:z") none, by decide, rfl⟩,
   (C10_tags_field_required
      [Resource.mk (some "arn:w") (some [Tag.mk "Name" "x"])]).2.1
      (by decide)⟩

end TagAudit
